import Mathlib

/-!
Verification of the bbai-snowflake-mcp server (working_sse_server.js variant).

Shallow embedding of the protocol layer: the JSON-RPC request dispatcher
(handleMCPRequest), the static tool registry built in the constructor, the
HTTP POST binding around the dispatcher, and the SSE session lifecycle
(handshake frames, heartbeat timer, cancellation on close and error).
JavaScript absent-or-null values are modelled with Option; the exception a
JavaScript property access on undefined raises is modelled with Except.
-/

/-- A JSON-RPC id: number, string or null (absent ids collapse to null). -/
inductive JsonId where
  | num (n : Int)
  | str (s : String)
  | null
deriving DecidableEq, Repr

/-- A JSON-RPC error object: code and message. -/
structure RpcError where
  code : Int
  message : String
deriving DecidableEq, Repr

/-- One property inside an inputSchema: its JSON type and documentation. -/
structure PropertySpec where
  type : String
  description : String
deriving DecidableEq, Repr

/-- A JSON-Schema-like object schema: named properties plus a required list. -/
structure InputSchema where
  type : String := "object"
  properties : List (String × PropertySpec)
  required : List String
deriving DecidableEq, Repr

/-- A tool descriptor, as registered in the constructor. -/
structure Tool where
  name : String
  description : String
  inputSchema : InputSchema
deriving DecidableEq, Repr

/-- One content block of a tool result: {type, text}. -/
structure ContentBlock where
  type : String
  text : String
deriving DecidableEq, Repr

/-- The server info payload used by initialize and by the SSE handshake. -/
structure ServerInfo where
  name : String
  version : String
deriving DecidableEq, Repr

/-- The result payload of a successful JSON-RPC response. -/
inductive MCPResult where
  | initResult (protocolVersion : String) (serverInfo : ServerInfo)
  | toolsResult (tools : List Tool)
  | contentResult (content : List ContentBlock)
deriving DecidableEq, Repr

/-- A JSON-RPC response: always jsonrpc 2.0 and an id; the dispatcher then
assigns result or error. -/
structure JsonRpcResponse where
  jsonrpc : String := "2.0"
  id : JsonId
  result : Option MCPResult := none
  error : Option RpcError := none
deriving DecidableEq, Repr

/-- The arguments object of a tools/call request; each known property is
present or absent. -/
structure Args where
  query : Option String := none
  industry : Option String := none
  size : Option String := none
deriving DecidableEq, Repr

/-- Arguments object with every property absent: the {} default. -/
def emptyArgs : Args := {}

/-- Look an arguments property up by its schema name. -/
def Args.get (a : Args) (p : String) : Option String :=
  if p = "query" then a.query
  else if p = "industry" then a.industry
  else if p = "size" then a.size
  else none

/-- The params object of a request; name and arguments may each be absent. -/
structure Params where
  name : Option String := none
  arguments : Option Args := none
deriving DecidableEq, Repr

/-- A decoded JSON-RPC request. params is none when the field is absent or
null, in which case a property access on it faults. -/
structure JsonRpcRequest where
  method : String
  params : Option Params := none
  id : JsonId := JsonId.null
deriving DecidableEq, Repr

/-- A runtime fault: the TypeError raised by reading a property of
undefined, as in params.name with params absent. -/
inductive Fault where
  | typeError
deriving DecidableEq, Repr

/-- cortex_search descriptor (constructor, first registry entry). -/
def cortexSearchTool : Tool :=
  { name := "cortex_search"
    description := "Search through employer benefit guide text content"
    inputSchema :=
      { properties := [("query", { type := "string", description := "Search query for benefit guides" })]
        required := ["query"] } }

/-- benefits_analysis descriptor (constructor, second registry entry). -/
def benefitsAnalysisTool : Tool :=
  { name := "benefits_analysis"
    description := "Analyze benefits data and trends across companies"
    inputSchema :=
      { properties := [("query", { type := "string", description := "Analysis request" })]
        required := ["query"] } }

/-- company_search descriptor (constructor, third registry entry). -/
def companySearchTool : Tool :=
  { name := "company_search"
    description := "Search for companies by industry or size"
    inputSchema :=
      { properties :=
          [("industry", { type := "string", description := "Industry to search" }),
           ("size", { type := "string", description := "Company size filter" })]
        required := ["industry"] } }

/-- The registry as built once by the constructor, in registration order. -/
def initTools : List Tool := [cortexSearchTool, benefitsAnalysisTool, companySearchTool]

/-- JavaScript template interpolation of a possibly-undefined value. -/
def jsShow (s : Option String) : String :=
  match s with
  | some v => v
  | none => "undefined"

/-- The cortex_search executor text for a given query string. -/
def cortexSearchText (query : String) : String :=
  "🔍 Search Results for \"" ++ query ++ "\":\n\nFound 12 companies matching your criteria:\n• Manufacturing Corp - Wellness programs\n• Tech Solutions - Mental health benefits\n• Healthcare Inc - EAP services\n\nBased on BENBETTER_GUIDES database."

/-- The benefits_analysis executor text for a given query string. -/
def benefitsAnalysisText (query : String) : String :=
  "📊 Benefits Analysis: \"" ++ query ++ "\"\n\nKey findings:\n• 78% offer wellness programs\n• Average 401k match: 5.2%\n• Mental health coverage: 89%\n\nData from 5,502 benefit guides."

/-- The company_search executor text for a given industry string. -/
def companySearchText (industry : String) : String :=
  "🏢 Company Search: " ++ industry ++ "\n\nFound companies:\n• ABC Corp (1000+ employees)\n• XYZ Inc (500-1000 employees)\n• Tech Solutions (200-500 employees)\n\nAll offer competitive benefit packages."

/-- The dispatcher, handleMCPRequest: switch on method, then on tool name.
Destructuring params.name when params is absent raises, hence Except. -/
def handleMCPRequest (tools : List Tool) (request : JsonRpcRequest) :
    Except Fault JsonRpcResponse :=
  if request.method = "initialize" then
    Except.ok
      { id := request.id
        result := some (MCPResult.initResult "2024-11-05"
          { name := "snowflake-mcp-server", version := "1.0.0" }) }
  else if request.method = "tools/list" then
    Except.ok { id := request.id, result := some (MCPResult.toolsResult tools) }
  else if request.method = "tools/call" then
    match request.params with
    | none => Except.error Fault.typeError
    | some p =>
      let toolArgs := p.arguments.getD emptyArgs
      if p.name = some "cortex_search" then
        Except.ok
          { id := request.id
            result := some (MCPResult.contentResult
              [{ type := "text", text := cortexSearchText (toolArgs.query.getD "") }]) }
      else if p.name = some "benefits_analysis" then
        Except.ok
          { id := request.id
            result := some (MCPResult.contentResult
              [{ type := "text", text := benefitsAnalysisText (toolArgs.query.getD "") }]) }
      else if p.name = some "company_search" then
        Except.ok
          { id := request.id
            result := some (MCPResult.contentResult
              [{ type := "text", text := companySearchText (toolArgs.industry.getD "") }]) }
      else
        Except.ok
          { id := request.id
            error := some { code := -32601, message := "Unknown tool: " ++ jsShow p.name } }
  else
    Except.ok
      { id := request.id
        error := some { code := -32601, message := "Unknown method: " ++ request.method } }

/-- An HTTP reply of the POST JSON-RPC endpoint: status and JSON body. -/
structure HttpReply where
  status : Nat
  body : JsonRpcResponse
deriving DecidableEq, Repr

/-- The parse-error body written from the catch branch of the POST handler. -/
def parseErrorBody : JsonRpcResponse :=
  { id := JsonId.null, error := some { code := -32700, message := "Parse error" } }

/-- The POST endpoint around the dispatcher: none models a body JSON.parse
rejects; the catch also covers a dispatcher fault. Status 200 on success,
400 with the parse-error body otherwise. -/
def handlePost (tools : List Tool) (parsed : Option JsonRpcRequest) : HttpReply :=
  match parsed with
  | none => { status := 400, body := parseErrorBody }
  | some req =>
    match handleMCPRequest tools req with
    | Except.ok resp => { status := 200, body := resp }
    | Except.error _ => { status := 400, body := parseErrorBody }

/-- The server state: the tools array set once in the constructor. -/
structure ServerState where
  tools : List Tool
deriving DecidableEq, Repr

/-- State right after construction. -/
def initServer : ServerState := { tools := initTools }

/-- Handling one request: dispatch against the current registry; no code
path assigns to the tools array, so the state is returned unchanged. -/
def serverHandle (s : ServerState) (req : JsonRpcRequest) :
    ServerState × Except Fault JsonRpcResponse :=
  (s, handleMCPRequest s.tools req)

/-- The state after a sequence of prior requests. -/
def runRequests (s : ServerState) (reqs : List JsonRpcRequest) : ServerState :=
  match reqs with
  | [] => s
  | r :: rest => runRequests (serverHandle s r).1 rest

/-- One frame written on the SSE stream. The heartbeat timestamp comes from
the wall clock and carries no protocol content, so ping is unparameterized. -/
inductive SseFrame where
  | serverInfoFrame (info : ServerInfo)
  | toolsListFrame (tools : List Tool)
  | readyFrame (message : String)
  | ping
deriving DecidableEq, Repr

/-- Whether a frame is a heartbeat. -/
def SseFrame.isPing : SseFrame → Bool
  | SseFrame.ping => true
  | _ => false

/-- Per-connection SSE session: whether the heartbeat interval timer is
still installed (clearInterval sets it false). -/
structure SseSession where
  timerActive : Bool
deriving DecidableEq, Repr

/-- Events a session observes after the handshake: a heartbeat interval
elapsing, the client close signal, or a stream error signal. -/
inductive SseEvent where
  | tick
  | close
  | error
deriving DecidableEq, Repr

/-- The three frames written synchronously when the SSE endpoint opens,
before the heartbeat interval is installed. -/
def sseHandshake (tools : List Tool) : List SseFrame :=
  [SseFrame.serverInfoFrame { name := "snowflake-mcp-server", version := "1.0.0" },
   SseFrame.toolsListFrame tools,
   SseFrame.readyFrame "MCP server ready"]

/-- Opening a connection: emit the handshake and install the timer. -/
def sseOpen (tools : List Tool) : SseSession × List SseFrame :=
  ({ timerActive := true }, sseHandshake tools)

/-- One session step: a tick writes a ping only while the timer is
installed; close and error both clear the timer and write nothing. -/
def sseStep (s : SseSession) (e : SseEvent) : SseSession × List SseFrame :=
  match e with
  | SseEvent.tick => if s.timerActive then (s, [SseFrame.ping]) else (s, [])
  | SseEvent.close => ({ timerActive := false }, [])
  | SseEvent.error => ({ timerActive := false }, [])

/-- Running a session over an event sequence, collecting written frames. -/
def sseRun (s : SseSession) (evs : List SseEvent) : SseSession × List SseFrame :=
  match evs with
  | [] => (s, [])
  | e :: rest =>
    let step := sseStep s e
    let next := sseRun step.1 rest
    (next.1, step.2 ++ next.2)

/-- The full stream of one SSE connection: handshake frames, then whatever
the post-open events write. -/
def sseTrace (tools : List Tool) (evs : List SseEvent) : List SseFrame :=
  (sseOpen tools).2 ++ (sseRun (sseOpen tools).1 evs).2

/-- Helper: no request handler assigns to the tools array, so the server
state after any sequence of prior requests equals the initial state. -/
theorem runRequests_fixed (s : ServerState) (reqs : List JsonRpcRequest) :
    runRequests s reqs = s := by
  induction reqs generalizing s with
  | nil => rfl
  | cons r rest ih => simpa [runRequests, serverHandle] using ih s

/-- Helper: every frame written after the handshake is a heartbeat ping
(close and error events write nothing). -/
theorem sseRun_frames_ping (s : SseSession) (evs : List SseEvent) :
    ∀ f ∈ (sseRun s evs).2, f = SseFrame.ping := by
  induction evs generalizing s with
  | nil => simp [sseRun]
  | cons e rest ih =>
    intro f hf
    simp only [sseRun, List.mem_append] at hf
    rcases hf with hf | hf
    · cases e with
      | tick =>
        by_cases hA : s.timerActive <;> simp [sseStep, hA] at hf
        exact hf
      | close => simp [sseStep] at hf
      | error => simp [sseStep] at hf
    · exact ih _ f hf

/-- Helper: once the heartbeat timer is cleared, no event writes any
further frame on the stream. -/
theorem sseRun_inactive (s : SseSession) (h : s.timerActive = false)
    (evs : List SseEvent) : (sseRun s evs).2 = [] := by
  induction evs generalizing s with
  | nil => rfl
  | cons e rest ih =>
    cases e with
    | tick => simp only [sseRun, sseStep, h]; simpa using ih s h
    | close => simp only [sseRun, sseStep]; simpa using ih { timerActive := false } rfl
    | error => simp only [sseRun, sseStep]; simpa using ih { timerActive := false } rfl

/-- The response the dispatcher produces for an initialize request with
numeric id 1; used to exercise the dispatcher at a concrete input. -/
def initializeResponse : JsonRpcResponse :=
  { id := JsonId.num 1
    result := some (MCPResult.initResult "2024-11-05"
      { name := "snowflake-mcp-server", version := "1.0.0" })
    error := none }

/-- Claim C1, counterexample: calling cortex_search with an arguments
object omitting its required query property does not produce a -32602
error; the dispatcher runs the executor with the query defaulted to the
empty string and returns a result with no error at all. -/
theorem c1_missing_required_counterexample :
    ∃ resp,
      handleMCPRequest initTools
        { method := "tools/call"
          params := some { name := some "cortex_search", arguments := some emptyArgs }
          id := JsonId.num 7 } = Except.ok resp
      ∧ resp.result = some (MCPResult.contentResult
          [{ type := "text", text := cortexSearchText "" }])
      ∧ resp.error = none := by
  exact ⟨_, rfl, rfl, rfl⟩

/-- Claim C1, amended: for every tools/call request naming a registered
tool whose arguments omit a property listed in that tool's required list,
the dispatcher does not return a -32602 invalid-params error; the
executor runs (with the missing property defaulted) and the response
carries a result and no error. -/
theorem c1_missing_required_amended (t : String) (a : Args) (k : JsonId)
    (hm : ∃ tool ∈ initTools, tool.name = t ∧
      ∃ p ∈ tool.inputSchema.required, a.get p = none) :
    ∃ resp,
      handleMCPRequest initTools
        { method := "tools/call"
          params := some { name := some t, arguments := some a }
          id := k } = Except.ok resp
      ∧ resp.error = none ∧ resp.result.isSome = true := by
  obtain ⟨tool, htool, hname, -⟩ := hm
  simp only [initTools, List.mem_cons, List.not_mem_nil, or_false] at htool
  rcases htool with rfl | rfl | rfl <;> subst hname
  · exact ⟨_, rfl, rfl, rfl⟩
  · exact ⟨_, rfl, rfl, rfl⟩
  · exact ⟨_, rfl, rfl, rfl⟩

/-- Witness for claim C1 amended: cortex_search invoked with the empty
arguments object, which omits the required query property. -/
theorem c1_missing_required_amended_witness :
    (∃ tool ∈ initTools, tool.name = "cortex_search" ∧
      ∃ p ∈ tool.inputSchema.required, emptyArgs.get p = none)
    ∧ ∃ resp,
        handleMCPRequest initTools
          { method := "tools/call"
            params := some { name := some "cortex_search", arguments := some emptyArgs }
            id := JsonId.num 8 } = Except.ok resp
        ∧ resp.error = none ∧ resp.result.isSome = true := by
  have hm : ∃ tool ∈ initTools, tool.name = "cortex_search" ∧
      ∃ p ∈ tool.inputSchema.required, emptyArgs.get p = none :=
    ⟨cortexSearchTool, by simp [initTools], rfl, "query", by simp [cortexSearchTool], rfl⟩
  exact ⟨hm, c1_missing_required_amended "cortex_search" emptyArgs (JsonId.num 8) hm⟩

/-- Claim C2: whenever the dispatcher returns a response (rather than
faulting), the response carries exactly one of result and error, and its
id equals the id of the input request. -/
theorem c2_response_exclusive (tools : List Tool) (req : JsonRpcRequest)
    (resp : JsonRpcResponse)
    (h : handleMCPRequest tools req = Except.ok resp) :
    ((resp.result.isSome = true ∧ resp.error = none)
      ∨ (resp.result = none ∧ resp.error.isSome = true))
    ∧ resp.id = req.id := by
  unfold handleMCPRequest at h
  repeat' split at h
  all_goals first
    | (injection h with h2; subst h2; simp)
    | (exact absurd h (by simp))

/-- Witness for claim C2: the dispatcher at an initialize request with
id 1 returns a response with a result, no error, and matching id. -/
theorem c2_response_exclusive_witness :
    ((initializeResponse.result.isSome = true ∧ initializeResponse.error = none)
      ∨ (initializeResponse.result = none ∧ initializeResponse.error.isSome = true))
    ∧ initializeResponse.id = JsonId.num 1 := by
  exact c2_response_exclusive initTools
    { method := "initialize", params := none, id := JsonId.num 1 }
    initializeResponse rfl

/-- Claim C3: a tools/call request naming an unregistered tool yields a
response whose error has code -32601 with a message naming the unknown
tool, and no result. -/
theorem c3_unknown_tool (n : String) (a : Option Args) (k : JsonId)
    (h : n ∉ initTools.map Tool.name) :
    handleMCPRequest initTools
      { method := "tools/call"
        params := some { name := some n, arguments := a }
        id := k }
      = Except.ok
          { id := k, result := none,
            error := some { code := -32601, message := "Unknown tool: " ++ n } } := by
  simp only [initTools, cortexSearchTool, benefitsAnalysisTool, companySearchTool,
    List.map_cons, List.map_nil, List.mem_cons, List.not_mem_nil, or_false, not_or] at h
  obtain ⟨h1, h2, h3⟩ := h
  simp [handleMCPRequest, h1, h2, h3, jsShow]

/-- Witness for claim C3: the unregistered tool name my_tool. -/
theorem c3_unknown_tool_witness :
    handleMCPRequest initTools
      { method := "tools/call"
        params := some { name := some "my_tool", arguments := none }
        id := JsonId.num 5 }
      = Except.ok
          { id := JsonId.num 5, result := none,
            error := some { code := -32601, message := "Unknown tool: " ++ "my_tool" } } := by
  exact c3_unknown_tool "my_tool" none (JsonId.num 5) (by decide)

/-- Claim C4: the dispatcher is total over method strings: any method
other than the three recognized ones returns (never raises) a response
whose error has code -32601 with a message naming the unknown method. -/
theorem c4_unknown_method (m : String) (p : Option Params) (k : JsonId)
    (h1 : m ≠ "initialize") (h2 : m ≠ "tools/list") (h3 : m ≠ "tools/call") :
    handleMCPRequest initTools { method := m, params := p, id := k }
      = Except.ok
          { id := k, result := none,
            error := some { code := -32601, message := "Unknown method: " ++ m } } := by
  simp [handleMCPRequest, h1, h2, h3]

/-- Witness for claim C4: the unrecognized method resources/list. -/
theorem c4_unknown_method_witness :
    handleMCPRequest initTools
      { method := "resources/list", params := none, id := JsonId.num 3 }
      = Except.ok
          { id := JsonId.num 3, result := none,
            error := some { code := -32601, message := "Unknown method: " ++ "resources/list" } } := by
  exact c4_unknown_method "resources/list" none (JsonId.num 3)
    (by decide) (by decide) (by decide)

/-- Claim C5: a POST body that is not valid JSON yields HTTP status 400
with the parse-error JSON-RPC body: error code -32700 and id null; the
handler is a total function, so the server does not fault. -/
theorem c5_parse_error :
    handlePost initTools none = { status := 400, body := parseErrorBody }
    ∧ parseErrorBody.error = some { code := -32700, message := "Parse error" }
    ∧ parseErrorBody.id = JsonId.null
    ∧ parseErrorBody.result = none :=
  ⟨rfl, rfl, rfl, rfl⟩

/-- Claim C6: after any number of prior requests, a tools/list request
returns the registered tools; the name sequence lists each registered
tool exactly once, in registration order, identically across calls. -/
theorem c6_tools_list_stable (prior : List JsonRpcRequest) (k : JsonId) :
    (serverHandle (runRequests initServer prior)
        { method := "tools/list", params := none, id := k }).2
      = Except.ok { id := k, result := some (MCPResult.toolsResult initTools), error := none }
    ∧ initTools.map Tool.name = ["cortex_search", "benefits_analysis", "company_search"]
    ∧ (initTools.map Tool.name).Nodup := by
  refine ⟨?_, by decide, by decide⟩
  rw [runRequests_fixed]
  rfl

/-- Claim C7: on a newly opened SSE connection, the frames written before
the first heartbeat are, in order, the server-info (connect/init) frame,
the full tool catalog, and the ready frame; the catalog carries exactly
the tool descriptors that the tools/list result carries. -/
theorem c7_handshake_before_heartbeat (evs : List SseEvent) :
    (sseTrace initTools evs).takeWhile (fun f => !(SseFrame.isPing f))
      = [SseFrame.serverInfoFrame { name := "snowflake-mcp-server", version := "1.0.0" },
         SseFrame.toolsListFrame initTools,
         SseFrame.readyFrame "MCP server ready"]
    ∧ ∀ k : JsonId,
        handleMCPRequest initTools { method := "tools/list", params := none, id := k }
          = Except.ok { id := k, result := some (MCPResult.toolsResult initTools), error := none } := by
  constructor
  · have hrest := sseRun_frames_ping (sseOpen initTools).1 evs
    unfold sseTrace
    cases hr : (sseRun (sseOpen initTools).1 evs).2 with
    | nil => simp [sseOpen, sseHandshake, List.takeWhile, SseFrame.isPing]
    | cons f t =>
      have hf : f = SseFrame.ping := hrest f (by rw [hr]; exact List.mem_cons_self f t)
      subst hf
      simp [sseOpen, sseHandshake, List.takeWhile, SseFrame.isPing]
  · intro k
    rfl

/-- Claim C8: a close or error signal clears the heartbeat timer; from
that point every subsequent event (heartbeat interval included) writes
zero frames on the stream, and repeating the cancelling signal leaves
the session unchanged and writes nothing (idempotent cancellation). -/
theorem c8_heartbeat_cancelled (s : SseSession) (e : SseEvent)
    (h : e = SseEvent.close ∨ e = SseEvent.error) (evs : List SseEvent) :
    (sseStep s e).1.timerActive = false
    ∧ (sseRun (sseStep s e).1 evs).2 = []
    ∧ sseStep (sseStep s e).1 e = ((sseStep s e).1, []) := by
  rcases h with rfl | rfl
  · exact ⟨rfl, sseRun_inactive _ rfl evs, rfl⟩
  · exact ⟨rfl, sseRun_inactive _ rfl evs, rfl⟩

/-- Witness for claim C8: a live session receiving close, then two more
heartbeat intervals. -/
theorem c8_heartbeat_cancelled_witness :
    (sseStep { timerActive := true } SseEvent.close).1.timerActive = false
    ∧ (sseRun (sseStep { timerActive := true } SseEvent.close).1
        [SseEvent.tick, SseEvent.tick]).2 = []
    ∧ sseStep (sseStep { timerActive := true } SseEvent.close).1 SseEvent.close
        = ((sseStep { timerActive := true } SseEvent.close).1, []) := by
  exact c8_heartbeat_cancelled { timerActive := true } SseEvent.close
    (Or.inl rfl) [SseEvent.tick, SseEvent.tick]

/-- Claim C9: a tools/call of cortex_search with a query string returns a
result whose first content block has type text and whose text contains
the submitted query string verbatim. -/
theorem c9_cortex_search_echo (q : String) (k : JsonId) :
    handleMCPRequest initTools
      { method := "tools/call"
        params := some { name := some "cortex_search", arguments := some { query := some q } }
        id := k }
      = Except.ok
          { id := k
            result := some (MCPResult.contentResult
              [{ type := "text", text := cortexSearchText q }])
            error := none }
    ∧ ∃ a b, cortexSearchText q = a ++ q ++ b := by
  refine ⟨rfl, "🔍 Search Results for \"",
    "\":\n\nFound 12 companies matching your criteria:\n• Manufacturing Corp - Wellness programs\n• Tech Solutions - Mental health benefits\n• Healthcare Inc - EAP services\n\nBased on BENBETTER_GUIDES database.", rfl⟩

/-- Claim C10: a syntactically valid tools/call request with the params
field entirely absent makes the dispatcher fault on the params.name
access; the catch branch of the POST binding then answers HTTP 400 with
the parse-error body (code -32700, id null) despite the body being valid
JSON. -/
theorem c10_missing_params_fault (k : JsonId) :
    handleMCPRequest initTools { method := "tools/call", params := none, id := k }
      = Except.error Fault.typeError
    ∧ handlePost initTools (some { method := "tools/call", params := none, id := k })
      = { status := 400, body := parseErrorBody }
    ∧ parseErrorBody.error = some { code := -32700, message := "Parse error" }
    ∧ parseErrorBody.id = JsonId.null :=
  ⟨rfl, rfl, rfl, rfl⟩
